import Mathlib

/-!
Shallow embedding of `src/routes/workItems/create.js` of tc-project-service:
the transactional create-work-item workflow (linkage lookup, project lookup,
payload enrichment, quota check, insert, sanitize, dual publish, respond),
together with its failure semantics (the single `.catch` at the end of the
promise chain forwarding any thrown error to `next`).

Rows of the relational store are structures; queries are translated from the
literal `where` clauses of the handler.  The run of one request is a pure
function from a configuration, a publish-failure environment, a store and a
request to a result carrying the post-state, the ordered trace of external
effects (bus publish, in-process emit, HTTP respond) and the outcome (response
written, or error forwarded to `next`).
-/

set_option autoImplicit false

namespace WorkItems

/-- A JSON-ish attribute value of a plain record, as produced by
`get({ plain: true })` on a persisted row. -/
inductive Val where
  | nat (n : Nat)
  | str (s : String)
  | null
  deriving DecidableEq, Repr

/-- A nullable integer column rendered as a plain value. -/
def optNatVal : Option Nat → Val
  | none => Val.null
  | some n => Val.nat n

/-- A nullable string column rendered as a plain value. -/
def optStrVal : Option String → Val
  | none => Val.null
  | some s => Val.str s

/-- A `ProjectPhase` row, as queried by the handler: only `id` and
`projectId` appear in the handler's `where` clause; the soft-delete column
exists on the table but is not filtered by this query. -/
structure PhaseRow where
  id : Nat
  projectId : Nat
  deletedAt : Option Nat
  deriving DecidableEq, Repr

/-- A `WorkStream` row, as queried through the handler's `include`: only
`id` and `projectId` appear in the `where` clause of the include; the
soft-delete column exists on the table but is not filtered by this query. -/
structure WorkStreamRow where
  id : Nat
  projectId : Nat
  deletedAt : Option Nat
  deriving DecidableEq, Repr

/-- A `Project` row.  The handler reads `directProjectId` and
`billingAccountId` from it and filters on `deletedAt`. -/
structure ProjectRow where
  id : Nat
  directProjectId : Option Nat
  billingAccountId : Option Nat
  deletedAt : Option Nat
  deriving DecidableEq, Repr

/-- A persisted `PhaseProduct` row: the payload fields, the system-assigned
fields set by the handler (`projectId`, `phaseId`, `createdBy`, `updatedBy`),
the generated `id` and timestamps, and the internal columns `deletedAt` and
`utm` that the handler strips before output. -/
structure PhaseProductRow where
  id : Nat
  name : String
  type : String
  templateId : Option Nat
  directProjectId : Option Nat
  billingAccountId : Option Nat
  estimatedPrice : Option Nat
  actualPrice : Option Nat
  details : Option String
  projectId : Nat
  phaseId : Nat
  createdBy : Nat
  updatedBy : Nat
  createdAt : Nat
  updatedAt : Nat
  deletedAt : Option Nat
  utm : Option String
  deriving DecidableEq, Repr

/-- The relational store visible to the handler.  `links` is the
phase/work-stream association table joined by the handler's `include`
(pairs `(phaseId, workStreamId)`).  `nextId` and `now` model the
generated primary key and the row timestamps of the next insert. -/
structure Store where
  phases : List PhaseRow
  workStreams : List WorkStreamRow
  links : List (Nat × Nat)
  projects : List ProjectRow
  phaseProducts : List PhaseProductRow
  nextId : Nat
  now : Nat
  deriving DecidableEq, Repr

/-- The request body `param`, after schema validation. -/
structure WorkItemPayload where
  name : String
  type : String
  templateId : Option Nat
  directProjectId : Option Nat
  billingAccountId : Option Nat
  estimatedPrice : Option Nat
  actualPrice : Option Nat
  details : Option String
  deriving DecidableEq, Repr

/-- The validated request: parsed path parameters, body payload, the
authenticated user's id and the request (correlation) id. -/
structure Request where
  projectId : Nat
  workStreamId : Nat
  phaseId : Nat
  body : WorkItemPayload
  authUserId : Nat
  id : Nat
  deriving DecidableEq, Repr

/-- The configuration source: `config.maxPhaseProductCount`. -/
structure Config where
  maxPhaseProductCount : Nat
  deriving DecidableEq, Repr

/-- An error value as thrown by the handler: the JS `Error` with an optional
`status` field (`404` / `400` for the handler's own errors; absent on an
error thrown by a collaborator such as a publish call). -/
structure WErr where
  status : Option Nat
  message : String
  deriving DecidableEq, Repr

/-- Failure environment for the two publish operations of the success path:
`some e` means the corresponding call throws `e` when invoked. -/
structure Env where
  pubsubError : Option WErr
  emitError : Option WErr
  deriving DecidableEq, Repr

/-- Modelled from the spec: `util.wrapResponse(req.id, content, count, status)`
wraps the sanitized entity into a standard envelope (request id, payload,
version marker, HTTP status); `util` is not part of this fragment. -/
structure Envelope where
  requestId : Nat
  content : List (String × Val)
  version : Nat
  status : Nat
  deriving DecidableEq, Repr

/-- Modelled from the spec: the fixed routing-key constant
`EVENT.ROUTING_KEY.PROJECT_PHASE_PRODUCT_ADDED` imported from
`../../constants`, which is not part of this fragment; both publish calls
use this one constant, so only its fixedness matters. -/
def PROJECT_PHASE_PRODUCT_ADDED : String := "PROJECT_PHASE_PRODUCT_ADDED"

/-- One external effect of a run, in the order the handler issues them. -/
inductive Effect where
  | publish (routingKey : String) (payload : List (String × Val)) (correlationId : Nat)
  | emit (eventName : String) (request : Request) (created : List (String × Val))
  | respond (status : Nat) (body : Envelope)
  deriving DecidableEq, Repr

/-- The kind of an effect, for ordering statements. -/
inductive EffKind where
  | busPublish
  | appEmit
  | httpRespond
  deriving DecidableEq, Repr

/-- Kind of an effect. -/
def effKind : Effect → EffKind
  | Effect.publish _ _ _ => EffKind.busPublish
  | Effect.emit _ _ _ => EffKind.appEmit
  | Effect.respond _ _ => EffKind.httpRespond

/-- Whether an effect is the durable-bus publish. -/
def isBusPublish (e : Effect) : Bool :=
  match e with
  | Effect.publish _ _ _ => true
  | _ => false

/-- Whether an effect is the in-process emit. -/
def isAppEmit (e : Effect) : Bool :=
  match e with
  | Effect.emit _ _ _ => true
  | _ => false

/-- How the run ended: the 201 response was written, or an error reached the
chain's final `.catch`, which forwarded it to `next`. -/
inductive Outcome where
  | responded (status : Nat) (body : Envelope)
  | errorHandled (e : WErr)
  deriving DecidableEq, Repr

/-- The result of one run: the store after the transaction (unchanged when it
rolled back), the ordered effect trace, and the outcome. -/
structure RunResult where
  store : Store
  effects : List Effect
  outcome : Outcome
  deriving DecidableEq, Repr

/-- The enriched creation data: payload fields plus the system-assigned
defaults the handler `_.assign`s onto it. -/
structure WorkItemData where
  name : String
  type : String
  templateId : Option Nat
  directProjectId : Option Nat
  billingAccountId : Option Nat
  estimatedPrice : Option Nat
  actualPrice : Option Nat
  details : Option String
  projectId : Nat
  phaseId : Nat
  createdBy : Nat
  updatedBy : Nat
  deriving DecidableEq, Repr

/-- The first `_.assign(data, { projectId, phaseId, createdBy, updatedBy })`
over the request body. -/
def assignDefaults (req : Request) : WorkItemData where
  name := req.body.name
  type := req.body.type
  templateId := req.body.templateId
  directProjectId := req.body.directProjectId
  billingAccountId := req.body.billingAccountId
  estimatedPrice := req.body.estimatedPrice
  actualPrice := req.body.actualPrice
  details := req.body.details
  projectId := req.projectId
  phaseId := req.phaseId
  createdBy := req.authUserId
  updatedBy := req.authUserId

/-- The second `_.assign(data, { phaseId, projectId, directProjectId,
billingAccountId })` from the resolved project: project-level values
overwrite whatever the caller supplied for these two fields. -/
def enrich (d : WorkItemData) (phaseId projectId : Nat) (p : ProjectRow) : WorkItemData :=
  { d with
    phaseId := phaseId
    projectId := projectId
    directProjectId := p.directProjectId
    billingAccountId := p.billingAccountId }

/-- Whether a phase row matches the handler's `ProjectPhase.findOne` query:
`where { id: phaseId, projectId }` with
`include [{ model: WorkStream, where: { id: workStreamId, projectId } }]`.
No condition on any soft-delete column appears in either `where` clause. -/
def linkageMatches (s : Store) (phaseId projectId workStreamId : Nat) (p : PhaseRow) : Bool :=
  p.id == phaseId && p.projectId == projectId &&
    s.workStreams.any fun w =>
      w.id == workStreamId && w.projectId == projectId && s.links.contains (p.id, w.id)

/-- Step 1 of the handler: `models.ProjectPhase.findOne` with the joined
`WorkStream` include. -/
def findLinkage (s : Store) (phaseId projectId workStreamId : Nat) : Option PhaseRow :=
  s.phases.find? (linkageMatches s phaseId projectId workStreamId)

/-- Step 2 of the handler: `models.Project.findOne({ where: { id: projectId,
deletedAt: { $eq: null } } })`. -/
def findProject (s : Store) (projectId : Nat) : Option ProjectRow :=
  s.projects.find? fun p => p.id == projectId && p.deletedAt == none

/-- Step 4 of the handler: `models.PhaseProduct.count({ where: { projectId,
phaseId, deletedAt: { $eq: null } } })`. -/
def countProducts (s : Store) (projectId phaseId : Nat) : Nat :=
  (s.phaseProducts.filter fun r =>
    r.projectId == projectId && r.phaseId == phaseId && r.deletedAt == none).length

/-- Step 5 of the handler: `models.PhaseProduct.create(data)` builds the
persisted row from the enriched data, the generated id and the timestamps;
the internal columns start out null. -/
def createRow (s : Store) (d : WorkItemData) : PhaseProductRow where
  id := s.nextId
  name := d.name
  type := d.type
  templateId := d.templateId
  directProjectId := d.directProjectId
  billingAccountId := d.billingAccountId
  estimatedPrice := d.estimatedPrice
  actualPrice := d.actualPrice
  details := d.details
  projectId := d.projectId
  phaseId := d.phaseId
  createdBy := d.createdBy
  updatedBy := d.updatedBy
  createdAt := s.now
  updatedAt := s.now
  deletedAt := none
  utm := none

/-- Committing the insert into the store. -/
def insertRow (s : Store) (row : PhaseProductRow) : Store :=
  { s with phaseProducts := s.phaseProducts ++ [row], nextId := s.nextId + 1 }

/-- `get({ plain: true })`: the persisted row as a plain record.  The keys
`deletedAt` and `utm` are present on the plain row. -/
def toPlain (r : PhaseProductRow) : List (String × Val) :=
  [("id", Val.nat r.id),
   ("name", Val.str r.name),
   ("type", Val.str r.type),
   ("templateId", optNatVal r.templateId),
   ("directProjectId", optNatVal r.directProjectId),
   ("billingAccountId", optNatVal r.billingAccountId),
   ("estimatedPrice", optNatVal r.estimatedPrice),
   ("actualPrice", optNatVal r.actualPrice),
   ("details", optStrVal r.details),
   ("projectId", Val.nat r.projectId),
   ("phaseId", Val.nat r.phaseId),
   ("createdBy", Val.nat r.createdBy),
   ("updatedBy", Val.nat r.updatedBy),
   ("createdAt", Val.nat r.createdAt),
   ("updatedAt", Val.nat r.updatedAt),
   ("deletedAt", optNatVal r.deletedAt),
   ("utm", optStrVal r.utm)]

/-- `_.omit(record, keys)`: drop the bindings whose key is listed. -/
def omitKeys (keys : List String) (record : List (String × Val)) : List (String × Val) :=
  record.filter fun kv => !(keys.contains kv.fst)

/-- The sanitized entity: `_.omit(plain, ['deletedAt', 'utm'])`. -/
def sanitized (r : PhaseProductRow) : List (String × Val) :=
  omitKeys ["deletedAt", "utm"] (toPlain r)

/-- Modelled from the spec: the response envelope assembly
`util.wrapResponse(req.id, newPhaseProduct, 1, 201)`. -/
def wrapResponse (requestId : Nat) (content : List (String × Val)) (version status : Nat) : Envelope :=
  { requestId := requestId, content := content, version := version, status := status }

/-- The 404 message of step 1, exactly as interpolated by the handler. -/
def linkageNotFoundMsg (projectId workStreamId phaseId : Nat) : String :=
  "project work stream not found for project id " ++ toString projectId ++
    " and work stream " ++ toString workStreamId ++ " and phase id " ++ toString phaseId

/-- The 404 message of step 2, exactly as interpolated by the handler. -/
def projectNotFoundMsg (projectId : Nat) : String :=
  "project not found for project id " ++ toString projectId

/-- The 400 message of the quota check, exactly as interpolated by the
handler. -/
def quotaMsg (maxPhaseProductCount : Nat) : String :=
  "the number of products per phase cannot exceed " ++ toString maxPhaseProductCount

/-- One run of the handler's third middleware, as the promise chain executes:
the transaction body (steps 1-5) either throws — then the transaction rolls
back, the store is unchanged, no effect was issued and the chain's final
`.catch` forwards the error to `next` — or commits the insert; after commit
the success callback publishes to the durable bus, emits in-process and
writes the 201 response, and a throw from either publish call likewise
falls through to the final `.catch`, with the committed insert kept. -/
def createWorkItem (cfg : Config) (env : Env) (s : Store) (req : Request) : RunResult :=
  let projectId := req.projectId
  let workStreamId := req.workStreamId
  let phaseId := req.phaseId
  let data := assignDefaults req
  match findLinkage s phaseId projectId workStreamId with
  | none =>
      { store := s, effects := []
        outcome := Outcome.errorHandled
          { status := some 404, message := linkageNotFoundMsg projectId workStreamId phaseId } }
  | some _ =>
    match findProject s projectId with
    | none =>
        { store := s, effects := []
          outcome := Outcome.errorHandled
            { status := some 404, message := projectNotFoundMsg projectId } }
    | some existingProject =>
      let data := enrich data phaseId projectId existingProject
      let productCount := countProducts s projectId phaseId
      if productCount ≥ cfg.maxPhaseProductCount then
        { store := s, effects := []
          outcome := Outcome.errorHandled
            { status := some 400, message := quotaMsg cfg.maxPhaseProductCount } }
      else
        let row := createRow s data
        let committed := insertRow s row
        let newPhaseProduct := sanitized row
        match env.pubsubError with
        | some e => { store := committed, effects := [], outcome := Outcome.errorHandled e }
        | none =>
          let pubEff := Effect.publish PROJECT_PHASE_PRODUCT_ADDED newPhaseProduct req.id
          match env.emitError with
          | some e =>
              { store := committed, effects := [pubEff], outcome := Outcome.errorHandled e }
          | none =>
            let emitEff := Effect.emit PROJECT_PHASE_PRODUCT_ADDED req newPhaseProduct
            let body := wrapResponse req.id newPhaseProduct 1 201
            { store := committed
              effects := [pubEff, emitEff, Effect.respond 201 body]
              outcome := Outcome.responded 201 body }

/-- A string occurs inside another. -/
def containsStr (hay pat : String) : Prop :=
  ∃ p q, hay = p ++ pat ++ q

/-- The row the success path inserts for a request resolved to `proj`. -/
def newRow (s : Store) (req : Request) (proj : ProjectRow) : PhaseProductRow :=
  createRow s (enrich (assignDefaults req) req.phaseId req.projectId proj)

/-- The sanitized entity of the success path. -/
def newPlain (s : Store) (req : Request) (proj : ProjectRow) : List (String × Val) :=
  sanitized (newRow s req proj)

/-- Overwriting the soft-delete marker of every phase and work-stream row;
the handler's linkage query reads neither marker, so it cannot distinguish
`s` from `markLinkageDeleted s t`. -/
def markLinkageDeleted (s : Store) (t : Option Nat) : Store :=
  { s with
    phases := s.phases.map fun p => { p with deletedAt := t }
    workStreams := s.workStreams.map fun w => { w with deletedAt := t } }

/-- Concrete request body: the spec's scenario payload, with caller-supplied
values for the two project-authoritative fields. -/
def payloadW : WorkItemPayload where
  name := "Design"
  type := "product"
  templateId := none
  directProjectId := some 9999
  billingAccountId := some 8888
  estimatedPrice := none
  actualPrice := none
  details := none

/-- Concrete request: the spec's scenario ids. -/
def reqW : Request where
  projectId := 1
  workStreamId := 10
  phaseId := 100
  body := payloadW
  authUserId := 77
  id := 42

/-- Concrete live project. -/
def projW : ProjectRow where
  id := 1
  directProjectId := some 500
  billingAccountId := some 600
  deletedAt := none

/-- Concrete phase row linked to the work stream. -/
def phaseW : PhaseRow where
  id := 100
  projectId := 1
  deletedAt := none

/-- Concrete work-stream row. -/
def wsW : WorkStreamRow where
  id := 10
  projectId := 1
  deletedAt := none

/-- Concrete store on which the scenario run succeeds. -/
def storeW : Store where
  phases := [phaseW]
  workStreams := [wsW]
  links := [(100, 10)]
  projects := [projW]
  phaseProducts := []
  nextId := 1000
  now := 5

/-- Concrete configuration: `maxPhaseProductCount = 2`. -/
def cfgW : Config where
  maxPhaseProductCount := 2

/-- Environment in which neither publish call throws. -/
def envOk : Env where
  pubsubError := none
  emitError := none

/-- A concrete error thrown by a publish collaborator (no `status` field). -/
def errW : WErr where
  status := none
  message := "publish failed"

/-- An existing non-deleted PhaseProduct row for `(projectId 1, phaseId 100)`. -/
def prodW (i : Nat) : PhaseProductRow where
  id := i
  name := "P"
  type := "product"
  templateId := none
  directProjectId := some 500
  billingAccountId := some 600
  estimatedPrice := none
  actualPrice := none
  details := none
  projectId := 1
  phaseId := 100
  createdBy := 7
  updatedBy := 7
  createdAt := 0
  updatedAt := 0
  deletedAt := none
  utm := none

/-- The scenario store with the quota already reached (2 live products). -/
def storeFull : Store :=
  { storeW with phaseProducts := [prodW 1, prodW 2] }

/-- The scenario store with one live product (one below the limit). -/
def storeOne : Store :=
  { storeW with phaseProducts := [prodW 1] }

/-- The scenario store without the phase/work-stream association row. -/
def storeNoLink : Store :=
  { storeW with links := [] }

/-- The scenario store whose only project row is soft-deleted. -/
def storeDelProj : Store :=
  { storeW with projects := [{ projW with deletedAt := some 3 }] }

/-- The scenario phase row, soft-deleted. -/
def phaseSoft : PhaseRow where
  id := 100
  projectId := 1
  deletedAt := some 7

/-- The scenario work-stream row, soft-deleted. -/
def wsSoft : WorkStreamRow where
  id := 10
  projectId := 1
  deletedAt := some 7

/-- The scenario store in which the only matching phase and work-stream rows
are both soft-deleted while the project is live. -/
def storeSoftLink : Store :=
  { storeW with phases := [phaseSoft], workStreams := [wsSoft] }

theorem run_linkage_none (cfg : Config) (env : Env) (s : Store) (req : Request)
    (h : findLinkage s req.phaseId req.projectId req.workStreamId = none) :
    createWorkItem cfg env s req =
      { store := s, effects := []
        outcome := Outcome.errorHandled
          { status := some 404
            message := linkageNotFoundMsg req.projectId req.workStreamId req.phaseId } } := by
  simp only [createWorkItem, h]

theorem run_project_none (cfg : Config) (env : Env) (s : Store) (req : Request) (ph : PhaseRow)
    (hL : findLinkage s req.phaseId req.projectId req.workStreamId = some ph)
    (hP : findProject s req.projectId = none) :
    createWorkItem cfg env s req =
      { store := s, effects := []
        outcome := Outcome.errorHandled
          { status := some 404, message := projectNotFoundMsg req.projectId } } := by
  simp only [createWorkItem, hL, hP]

theorem run_quota_hit (cfg : Config) (env : Env) (s : Store) (req : Request)
    (ph : PhaseRow) (proj : ProjectRow)
    (hL : findLinkage s req.phaseId req.projectId req.workStreamId = some ph)
    (hP : findProject s req.projectId = some proj)
    (hq : countProducts s req.projectId req.phaseId ≥ cfg.maxPhaseProductCount) :
    createWorkItem cfg env s req =
      { store := s, effects := []
        outcome := Outcome.errorHandled
          { status := some 400, message := quotaMsg cfg.maxPhaseProductCount } } := by
  simp only [createWorkItem, hL, hP, if_pos hq]

theorem run_success (cfg : Config) (s : Store) (req : Request)
    (ph : PhaseRow) (proj : ProjectRow)
    (hL : findLinkage s req.phaseId req.projectId req.workStreamId = some ph)
    (hP : findProject s req.projectId = some proj)
    (hq : countProducts s req.projectId req.phaseId < cfg.maxPhaseProductCount) :
    createWorkItem cfg envOk s req =
      { store := insertRow s (newRow s req proj)
        effects :=
          [Effect.publish PROJECT_PHASE_PRODUCT_ADDED (newPlain s req proj) req.id,
           Effect.emit PROJECT_PHASE_PRODUCT_ADDED req (newPlain s req proj),
           Effect.respond 201 (wrapResponse req.id (newPlain s req proj) 1 201)]
        outcome := Outcome.responded 201 (wrapResponse req.id (newPlain s req proj) 1 201) } := by
  simp only [createWorkItem, envOk, hL, hP, if_neg (Nat.not_le.mpr hq), newRow, newPlain]

theorem run_pubsub_throws (cfg : Config) (s : Store) (req : Request)
    (ph : PhaseRow) (proj : ProjectRow) (e : WErr) (emitE : Option WErr)
    (hL : findLinkage s req.phaseId req.projectId req.workStreamId = some ph)
    (hP : findProject s req.projectId = some proj)
    (hq : countProducts s req.projectId req.phaseId < cfg.maxPhaseProductCount) :
    createWorkItem cfg { pubsubError := some e, emitError := emitE } s req =
      { store := insertRow s (newRow s req proj)
        effects := []
        outcome := Outcome.errorHandled e } := by
  simp only [createWorkItem, hL, hP, if_neg (Nat.not_le.mpr hq), newRow]

theorem run_emit_throws (cfg : Config) (s : Store) (req : Request)
    (ph : PhaseRow) (proj : ProjectRow) (e : WErr)
    (hL : findLinkage s req.phaseId req.projectId req.workStreamId = some ph)
    (hP : findProject s req.projectId = some proj)
    (hq : countProducts s req.projectId req.phaseId < cfg.maxPhaseProductCount) :
    createWorkItem cfg { pubsubError := none, emitError := some e } s req =
      { store := insertRow s (newRow s req proj)
        effects := [Effect.publish PROJECT_PHASE_PRODUCT_ADDED (newPlain s req proj) req.id]
        outcome := Outcome.errorHandled e } := by
  simp only [createWorkItem, hL, hP, if_neg (Nat.not_le.mpr hq), newRow, newPlain]

theorem findLinkage_eq_none_of (s : Store) (phaseId projectId workStreamId : Nat)
    (h : ∀ p ∈ s.phases, ¬ (p.id = phaseId ∧ p.projectId = projectId ∧
      ∃ w ∈ s.workStreams, w.id = workStreamId ∧ w.projectId = projectId ∧
        (p.id, w.id) ∈ s.links)) :
    findLinkage s phaseId projectId workStreamId = none := by
  rw [findLinkage, List.find?_eq_none]
  intro p hp
  have hnp := h p hp
  simp only [linkageMatches, Bool.and_eq_true, beq_iff_eq, List.any_eq_true,
    List.elem_iff] at *
  intro hc
  exact hnp ⟨hc.1.1, hc.1.2, by
    obtain ⟨w, hw, hwc⟩ := hc.2
    exact ⟨w, hw, hwc.1.1, hwc.1.2, hwc.2⟩⟩

theorem findProject_eq_none_of (s : Store) (projectId : Nat)
    (h : ∀ p ∈ s.projects, p.id = projectId → p.deletedAt ≠ none) :
    findProject s projectId = none := by
  rw [findProject, List.find?_eq_none]
  intro p hp
  simp only [Bool.and_eq_true, beq_iff_eq, not_and]
  intro hid
  simpa using h p hp hid

theorem countProducts_insertRow (s : Store) (row : PhaseProductRow) (projectId phaseId : Nat)
    (hpid : row.projectId = projectId) (hphid : row.phaseId = phaseId)
    (hdel : row.deletedAt = none) :
    countProducts (insertRow s row) projectId phaseId = countProducts s projectId phaseId + 1 := by
  simp [countProducts, insertRow, List.filter_append, hpid, hphid, hdel]

theorem linkageNotFoundMsg_contains (projectId workStreamId phaseId : Nat) :
    containsStr (linkageNotFoundMsg projectId workStreamId phaseId) (toString projectId) ∧
    containsStr (linkageNotFoundMsg projectId workStreamId phaseId) (toString workStreamId) ∧
    containsStr (linkageNotFoundMsg projectId workStreamId phaseId) (toString phaseId) := by
  refine ⟨⟨"project work stream not found for project id ",
      " and work stream " ++ toString workStreamId ++ " and phase id " ++ toString phaseId, ?_⟩,
    ⟨"project work stream not found for project id " ++ toString projectId ++ " and work stream ",
      " and phase id " ++ toString phaseId, ?_⟩,
    ⟨"project work stream not found for project id " ++ toString projectId ++
        " and work stream " ++ toString workStreamId ++ " and phase id ", "", ?_⟩⟩ <;>
    simp [linkageNotFoundMsg, String.append_assoc]

theorem projectNotFoundMsg_contains (projectId : Nat) :
    containsStr (projectNotFoundMsg projectId) (toString projectId) := by
  exact ⟨"project not found for project id ", "", by simp [projectNotFoundMsg]⟩

theorem quotaMsg_contains (maxPhaseProductCount : Nat) :
    containsStr (quotaMsg maxPhaseProductCount) (toString maxPhaseProductCount) := by
  exact ⟨"the number of products per phase cannot exceed ", "", by simp [quotaMsg]⟩

theorem find_isSome_map_congr {α : Type} (f : α → α) (p q : α → Bool)
    (h : ∀ x, p (f x) = q x) :
    ∀ l : List α, ((l.map f).find? p).isSome = (l.find? q).isSome := by
  intro l
  induction l with
  | nil => rfl
  | cons a l ih =>
      simp only [List.map_cons, List.find?]
      rw [h a]
      cases hq : q a
      · exact ih
      · rfl

theorem linkageMatches_mark (s : Store) (t : Option Nat) (phaseId projectId workStreamId : Nat)
    (p : PhaseRow) :
    linkageMatches (markLinkageDeleted s t) phaseId projectId workStreamId
        { p with deletedAt := t } =
      linkageMatches s phaseId projectId workStreamId p := by
  simp only [linkageMatches, markLinkageDeleted, List.any_map]
  congr 2

theorem findLinkage_mark_isSome (s : Store) (t : Option Nat)
    (phaseId projectId workStreamId : Nat) :
    (findLinkage (markLinkageDeleted s t) phaseId projectId workStreamId).isSome =
      (findLinkage s phaseId projectId workStreamId).isSome := by
  have hm : (markLinkageDeleted s t).phases = s.phases.map fun p => { p with deletedAt := t } :=
    rfl
  rw [findLinkage, findLinkage, hm]
  exact find_isSome_map_congr _ _ _
    (linkageMatches_mark s t phaseId projectId workStreamId) s.phases

/-- C1: Quota enforcement boundary.  With a valid phase/work-stream linkage
and a live project, if exactly `maxPhaseProductCount` non-soft-deleted
PhaseProduct rows exist for `(projectId, phaseId)` then the run fails with a
400 error whose message names the configured limit and the store is
unchanged (nothing inserted, no effect issued); if exactly
`maxPhaseProductCount - 1` exist, the run responds 201 and the non-deleted
count for the pair becomes `maxPhaseProductCount`. -/
theorem C1_quota_boundary (cfg : Config) (s : Store) (req : Request)
    (ph : PhaseRow) (proj : ProjectRow)
    (hL : findLinkage s req.phaseId req.projectId req.workStreamId = some ph)
    (hP : findProject s req.projectId = some proj) :
    (countProducts s req.projectId req.phaseId = cfg.maxPhaseProductCount →
      (∀ env : Env, createWorkItem cfg env s req =
        { store := s, effects := []
          outcome := Outcome.errorHandled
            { status := some 400, message := quotaMsg cfg.maxPhaseProductCount } }) ∧
      containsStr (quotaMsg cfg.maxPhaseProductCount) (toString cfg.maxPhaseProductCount)) ∧
    (1 ≤ cfg.maxPhaseProductCount →
      countProducts s req.projectId req.phaseId = cfg.maxPhaseProductCount - 1 →
      (createWorkItem cfg envOk s req).outcome =
        Outcome.responded 201 (wrapResponse req.id (newPlain s req proj) 1 201) ∧
      countProducts (createWorkItem cfg envOk s req).store req.projectId req.phaseId =
        cfg.maxPhaseProductCount) := by
  constructor
  · intro hc
    exact ⟨fun env => run_quota_hit cfg env s req ph proj hL hP hc.ge, quotaMsg_contains _⟩
  · intro h1 hc
    have hq : countProducts s req.projectId req.phaseId < cfg.maxPhaseProductCount := by omega
    rw [run_success cfg s req ph proj hL hP hq]
    refine ⟨rfl, ?_⟩
    rw [countProducts_insertRow s (newRow s req proj) req.projectId req.phaseId rfl rfl rfl]
    omega

/-- C1 witness: on the scenario store with 2 = maxPhaseProductCount live
products the run fails with the 400 quota error and inserts nothing; with 1
live product it responds 201 and the live count becomes 2. -/
theorem C1_quota_boundary_witness :
    createWorkItem cfgW envOk storeFull reqW =
      { store := storeFull, effects := []
        outcome := Outcome.errorHandled
          { status := some 400, message := quotaMsg cfgW.maxPhaseProductCount } } ∧
    (createWorkItem cfgW envOk storeOne reqW).outcome =
      Outcome.responded 201 (wrapResponse reqW.id (newPlain storeOne reqW projW) 1 201) ∧
    countProducts (createWorkItem cfgW envOk storeOne reqW).store reqW.projectId reqW.phaseId =
      cfgW.maxPhaseProductCount := by
  refine ⟨((C1_quota_boundary cfgW storeFull reqW phaseW projW (by decide)
      (by decide)).1 (by decide)).1 envOk, ?_, ?_⟩
  · exact ((C1_quota_boundary cfgW storeOne reqW phaseW projW (by decide)
      (by decide)).2 (by decide) (by decide)).1
  · exact ((C1_quota_boundary cfgW storeOne reqW phaseW projW (by decide)
      (by decide)).2 (by decide) (by decide)).2

/-- C2: Atomicity of failure.  Whenever one of the transactional steps fails
(no linkage, no live project, quota reached), the run leaves the store
unchanged (no PhaseProduct persists), issues neither the durable-bus publish
nor the in-process emit, and the error forwarded to the caller carries
status 404 respectively 400 and the offending identifiers in its message. -/
theorem C2_failure_atomicity (cfg : Config) (env : Env) (s : Store) (req : Request) :
    (findLinkage s req.phaseId req.projectId req.workStreamId = none →
      createWorkItem cfg env s req =
        { store := s, effects := []
          outcome := Outcome.errorHandled
            { status := some 404
              message := linkageNotFoundMsg req.projectId req.workStreamId req.phaseId } } ∧
      containsStr (linkageNotFoundMsg req.projectId req.workStreamId req.phaseId)
        (toString req.projectId) ∧
      containsStr (linkageNotFoundMsg req.projectId req.workStreamId req.phaseId)
        (toString req.workStreamId) ∧
      containsStr (linkageNotFoundMsg req.projectId req.workStreamId req.phaseId)
        (toString req.phaseId)) ∧
    (∀ ph : PhaseRow,
      findLinkage s req.phaseId req.projectId req.workStreamId = some ph →
      findProject s req.projectId = none →
      createWorkItem cfg env s req =
        { store := s, effects := []
          outcome := Outcome.errorHandled
            { status := some 404, message := projectNotFoundMsg req.projectId } } ∧
      containsStr (projectNotFoundMsg req.projectId) (toString req.projectId)) ∧
    (∀ (ph : PhaseRow) (proj : ProjectRow),
      findLinkage s req.phaseId req.projectId req.workStreamId = some ph →
      findProject s req.projectId = some proj →
      cfg.maxPhaseProductCount ≤ countProducts s req.projectId req.phaseId →
      createWorkItem cfg env s req =
        { store := s, effects := []
          outcome := Outcome.errorHandled
            { status := some 400, message := quotaMsg cfg.maxPhaseProductCount } } ∧
      containsStr (quotaMsg cfg.maxPhaseProductCount)
        (toString cfg.maxPhaseProductCount)) := by
  refine ⟨fun h => ⟨run_linkage_none cfg env s req h,
      (linkageNotFoundMsg_contains req.projectId req.workStreamId req.phaseId).1,
      (linkageNotFoundMsg_contains req.projectId req.workStreamId req.phaseId).2.1,
      (linkageNotFoundMsg_contains req.projectId req.workStreamId req.phaseId).2.2⟩,
    fun ph hL hP => ⟨run_project_none cfg env s req ph hL hP,
      projectNotFoundMsg_contains req.projectId⟩,
    fun ph proj hL hP hq => ⟨run_quota_hit cfg env s req ph proj hL hP hq,
      quotaMsg_contains cfg.maxPhaseProductCount⟩⟩

/-- C2 witness: on the scenario store without the association row, the run
is the 404 linkage error with unchanged store and empty effect trace. -/
theorem C2_failure_atomicity_witness :
    createWorkItem cfgW envOk storeNoLink reqW =
      { store := storeNoLink, effects := []
        outcome := Outcome.errorHandled
          { status := some 404
            message := linkageNotFoundMsg reqW.projectId reqW.workStreamId reqW.phaseId } } := by
  exact ((C2_failure_atomicity cfgW envOk storeNoLink reqW).1 (by decide)).1

/-- C3 counterexample: with a valid scenario state and a durable-bus publish
that throws, the failure lands in the chain's final `.catch` — the run's
outcome is exactly `errorHandled` of the thrown error, i.e. a catch does
apply to it, contrary to the claim — while, as the claim also says, the
committed insert is kept. -/
theorem C3_counterexample :
    (createWorkItem cfgW { pubsubError := some errW, emitError := none } storeW reqW).outcome =
      Outcome.errorHandled errW ∧
    (createWorkItem cfgW { pubsubError := some errW, emitError := none }
        storeW reqW).store.phaseProducts =
      storeW.phaseProducts ++ [newRow storeW reqW projW] := by
  have h := run_pubsub_throws cfgW storeW reqW phaseW projW errW none
    (by decide) (by decide) (by decide)
  rw [h]
  exact ⟨rfl, rfl⟩

/-- C3 (amended): if the durable-bus publish or the in-process emit throws
after the insert has committed, the failure is intercepted by the promise
chain's final `.catch` (which forwards it to the error callback), and the
already-committed insert is not rolled back; when the emit throws, the
durable-bus publish has already been issued. -/
theorem C3_publish_failure_after_commit (cfg : Config) (s : Store) (req : Request)
    (ph : PhaseRow) (proj : ProjectRow) (e : WErr)
    (hL : findLinkage s req.phaseId req.projectId req.workStreamId = some ph)
    (hP : findProject s req.projectId = some proj)
    (hq : countProducts s req.projectId req.phaseId < cfg.maxPhaseProductCount) :
    (∀ emitE : Option WErr,
      createWorkItem cfg { pubsubError := some e, emitError := emitE } s req =
        { store := insertRow s (newRow s req proj), effects := []
          outcome := Outcome.errorHandled e }) ∧
    createWorkItem cfg { pubsubError := none, emitError := some e } s req =
      { store := insertRow s (newRow s req proj)
        effects := [Effect.publish PROJECT_PHASE_PRODUCT_ADDED (newPlain s req proj) req.id]
        outcome := Outcome.errorHandled e } := by
  exact ⟨fun emitE => run_pubsub_throws cfg s req ph proj e emitE hL hP hq,
    run_emit_throws cfg s req ph proj e hL hP hq⟩

/-- C3 witness: the amended statement at the scenario input with a throwing
in-process emit. -/
theorem C3_publish_failure_after_commit_witness :
    createWorkItem cfgW { pubsubError := none, emitError := some errW } storeW reqW =
      { store := insertRow storeW (newRow storeW reqW projW)
        effects := [Effect.publish PROJECT_PHASE_PRODUCT_ADDED (newPlain storeW reqW projW) reqW.id]
        outcome := Outcome.errorHandled errW } := by
  exact (C3_publish_failure_after_commit cfgW storeW reqW phaseW projW errW
    (by decide) (by decide) (by decide)).2

/-- C4: Linkage integrity.  When no phase row with `(id = phaseId,
projectId)` is joined to a work-stream row with `(id = workStreamId,
projectId)`, the run fails with a 404 error whose message contains all
three identifiers, the store is unchanged and no effect is issued. -/
theorem C4_linkage_integrity (cfg : Config) (env : Env) (s : Store) (req : Request)
    (h : ∀ p ∈ s.phases, ¬ (p.id = req.phaseId ∧ p.projectId = req.projectId ∧
      ∃ w ∈ s.workStreams, w.id = req.workStreamId ∧ w.projectId = req.projectId ∧
        (p.id, w.id) ∈ s.links)) :
    createWorkItem cfg env s req =
      { store := s, effects := []
        outcome := Outcome.errorHandled
          { status := some 404
            message := linkageNotFoundMsg req.projectId req.workStreamId req.phaseId } } ∧
    containsStr (linkageNotFoundMsg req.projectId req.workStreamId req.phaseId)
      (toString req.projectId) ∧
    containsStr (linkageNotFoundMsg req.projectId req.workStreamId req.phaseId)
      (toString req.workStreamId) ∧
    containsStr (linkageNotFoundMsg req.projectId req.workStreamId req.phaseId)
      (toString req.phaseId) := by
  have hn := findLinkage_eq_none_of s req.phaseId req.projectId req.workStreamId h
  exact ⟨run_linkage_none cfg env s req hn,
    (linkageNotFoundMsg_contains req.projectId req.workStreamId req.phaseId).1,
    (linkageNotFoundMsg_contains req.projectId req.workStreamId req.phaseId).2.1,
    (linkageNotFoundMsg_contains req.projectId req.workStreamId req.phaseId).2.2⟩

/-- C4 witness: the linkage-integrity theorem at the scenario store whose
association table is empty. -/
theorem C4_linkage_integrity_witness :
    createWorkItem cfgW envOk storeNoLink reqW =
      { store := storeNoLink, effects := []
        outcome := Outcome.errorHandled
          { status := some 404
            message := linkageNotFoundMsg reqW.projectId reqW.workStreamId reqW.phaseId } } := by
  exact (C4_linkage_integrity cfgW envOk storeNoLink reqW (by decide)).1

/-- C5: Soft-delete exclusion of the project.  With a valid linkage but no
project row for `projectId` whose `deletedAt` is unset (either no row at
all, or only soft-deleted rows), the run fails with a 404 error identifying
the project id, the store is unchanged and no effect is issued. -/
theorem C5_soft_deleted_project (cfg : Config) (env : Env) (s : Store) (req : Request)
    (ph : PhaseRow)
    (hL : findLinkage s req.phaseId req.projectId req.workStreamId = some ph)
    (h : ∀ p ∈ s.projects, p.id = req.projectId → p.deletedAt ≠ none) :
    createWorkItem cfg env s req =
      { store := s, effects := []
        outcome := Outcome.errorHandled
          { status := some 404, message := projectNotFoundMsg req.projectId } } ∧
    containsStr (projectNotFoundMsg req.projectId) (toString req.projectId) := by
  exact ⟨run_project_none cfg env s req ph hL (findProject_eq_none_of s req.projectId h),
    projectNotFoundMsg_contains req.projectId⟩

/-- C5 witness: the soft-delete-exclusion theorem at the scenario store
whose only project row is soft-deleted while the linkage is valid. -/
theorem C5_soft_deleted_project_witness :
    createWorkItem cfgW envOk storeDelProj reqW =
      { store := storeDelProj, effects := []
        outcome := Outcome.errorHandled
          { status := some 404, message := projectNotFoundMsg reqW.projectId } } := by
  exact (C5_soft_deleted_project cfgW envOk storeDelProj reqW phaseW
    (by decide) (by decide)).1

/-- C6: Authoritative enrichment.  On a successful run the persisted row's
`directProjectId` and `billingAccountId` equal the resolved project's values
— whatever the caller put in the body, which is universally quantified here
— and its `projectId`/`phaseId` equal the path-resolved values. -/
theorem C6_authoritative_enrichment (cfg : Config) (s : Store) (req : Request)
    (ph : PhaseRow) (proj : ProjectRow)
    (hL : findLinkage s req.phaseId req.projectId req.workStreamId = some ph)
    (hP : findProject s req.projectId = some proj)
    (hq : countProducts s req.projectId req.phaseId < cfg.maxPhaseProductCount) :
    (createWorkItem cfg envOk s req).store.phaseProducts =
      s.phaseProducts ++ [newRow s req proj] ∧
    (newRow s req proj).directProjectId = proj.directProjectId ∧
    (newRow s req proj).billingAccountId = proj.billingAccountId ∧
    (newRow s req proj).projectId = req.projectId ∧
    (newRow s req proj).phaseId = req.phaseId ∧
    (createWorkItem cfg envOk s req).outcome =
      Outcome.responded 201 (wrapResponse req.id (newPlain s req proj) 1 201) := by
  rw [run_success cfg s req ph proj hL hP hq]
  exact ⟨rfl, rfl, rfl, rfl, rfl, rfl⟩

/-- C6 witness: on the scenario store, with caller-supplied
`directProjectId = 9999` and `billingAccountId = 8888` in the body, the
persisted row carries the project's values 500 and 600 instead. -/
theorem C6_authoritative_enrichment_witness :
    (createWorkItem cfgW envOk storeW reqW).store.phaseProducts =
      storeW.phaseProducts ++ [newRow storeW reqW projW] ∧
    (newRow storeW reqW projW).directProjectId = projW.directProjectId ∧
    (newRow storeW reqW projW).billingAccountId = projW.billingAccountId ∧
    (newRow storeW reqW projW).projectId = reqW.projectId ∧
    (newRow storeW reqW projW).phaseId = reqW.phaseId ∧
    (createWorkItem cfgW envOk storeW reqW).outcome =
      Outcome.responded 201 (wrapResponse reqW.id (newPlain storeW reqW projW) 1 201) := by
  exact C6_authoritative_enrichment cfgW storeW reqW phaseW projW
    (by decide) (by decide) (by decide)

/-- C7: Sanitization.  On a successful run the entity handed to the
durable-bus publish, to the in-process emit and to the 201 response is the
sanitized plain record, whose key set contains neither `deletedAt` nor
`utm`, while the plain form of the freshly persisted row carries both keys;
the persisted row itself is in the store. -/
theorem C7_sanitization (cfg : Config) (s : Store) (req : Request)
    (ph : PhaseRow) (proj : ProjectRow)
    (hL : findLinkage s req.phaseId req.projectId req.workStreamId = some ph)
    (hP : findProject s req.projectId = some proj)
    (hq : countProducts s req.projectId req.phaseId < cfg.maxPhaseProductCount) :
    (createWorkItem cfg envOk s req).effects =
      [Effect.publish PROJECT_PHASE_PRODUCT_ADDED (newPlain s req proj) req.id,
       Effect.emit PROJECT_PHASE_PRODUCT_ADDED req (newPlain s req proj),
       Effect.respond 201 (wrapResponse req.id (newPlain s req proj) 1 201)] ∧
    "deletedAt" ∉ (newPlain s req proj).map Prod.fst ∧
    "utm" ∉ (newPlain s req proj).map Prod.fst ∧
    "deletedAt" ∈ (toPlain (newRow s req proj)).map Prod.fst ∧
    "utm" ∈ (toPlain (newRow s req proj)).map Prod.fst ∧
    newRow s req proj ∈ (createWorkItem cfg envOk s req).store.phaseProducts := by
  have hkeys : (newPlain s req proj).map Prod.fst =
      ["id", "name", "type", "templateId", "directProjectId", "billingAccountId",
       "estimatedPrice", "actualPrice", "details", "projectId", "phaseId",
       "createdBy", "updatedBy", "createdAt", "updatedAt"] := rfl
  have hall : (toPlain (newRow s req proj)).map Prod.fst =
      ["id", "name", "type", "templateId", "directProjectId", "billingAccountId",
       "estimatedPrice", "actualPrice", "details", "projectId", "phaseId",
       "createdBy", "updatedBy", "createdAt", "updatedAt", "deletedAt", "utm"] := rfl
  rw [run_success cfg s req ph proj hL hP hq]
  refine ⟨rfl, ?_, ?_, ?_, ?_, ?_⟩
  · rw [hkeys]; decide
  · rw [hkeys]; decide
  · rw [hall]; decide
  · rw [hall]; decide
  · simp [insertRow]

/-- C7 witness: the sanitization theorem at the scenario input. -/
theorem C7_sanitization_witness :
    "deletedAt" ∉ (newPlain storeW reqW projW).map Prod.fst ∧
    "utm" ∉ (newPlain storeW reqW projW).map Prod.fst ∧
    "deletedAt" ∈ (toPlain (newRow storeW reqW projW)).map Prod.fst ∧
    "utm" ∈ (toPlain (newRow storeW reqW projW)).map Prod.fst := by
  have h := C7_sanitization cfgW storeW reqW phaseW projW (by decide) (by decide) (by decide)
  exact ⟨h.2.1, h.2.2.1, h.2.2.2.1, h.2.2.2.2.1⟩

/-- C8: Dual publish.  On a successful run the durable-bus publish and the
in-process emit are each issued exactly once, both carry the same sanitized
entity, the durable-bus publish uses the fixed routing key with the
request's id as correlation id, and the emit carries the request context
together with the created entity. -/
theorem C8_dual_publish (cfg : Config) (s : Store) (req : Request)
    (ph : PhaseRow) (proj : ProjectRow)
    (hL : findLinkage s req.phaseId req.projectId req.workStreamId = some ph)
    (hP : findProject s req.projectId = some proj)
    (hq : countProducts s req.projectId req.phaseId < cfg.maxPhaseProductCount) :
    (createWorkItem cfg envOk s req).effects =
      [Effect.publish PROJECT_PHASE_PRODUCT_ADDED (newPlain s req proj) req.id,
       Effect.emit PROJECT_PHASE_PRODUCT_ADDED req (newPlain s req proj),
       Effect.respond 201 (wrapResponse req.id (newPlain s req proj) 1 201)] ∧
    ((createWorkItem cfg envOk s req).effects.filter isBusPublish).length = 1 ∧
    ((createWorkItem cfg envOk s req).effects.filter isAppEmit).length = 1 := by
  rw [run_success cfg s req ph proj hL hP hq]
  exact ⟨rfl, rfl, rfl⟩

/-- C8 witness: the dual-publish theorem at the scenario input. -/
theorem C8_dual_publish_witness :
    (createWorkItem cfgW envOk storeW reqW).effects =
      [Effect.publish PROJECT_PHASE_PRODUCT_ADDED (newPlain storeW reqW projW) reqW.id,
       Effect.emit PROJECT_PHASE_PRODUCT_ADDED reqW (newPlain storeW reqW projW),
       Effect.respond 201 (wrapResponse reqW.id (newPlain storeW reqW projW) 1 201)] ∧
    ((createWorkItem cfgW envOk storeW reqW).effects.filter isBusPublish).length = 1 ∧
    ((createWorkItem cfgW envOk storeW reqW).effects.filter isAppEmit).length = 1 := by
  exact C8_dual_publish cfgW storeW reqW phaseW projW (by decide) (by decide) (by decide)

/-- C9: Publish-before-response ordering.  On a successful run the effect
trace is, in order: the durable-bus publish, the in-process emit, the HTTP
response — so both publish invocations are issued before the 201 response
is written. -/
theorem C9_publish_before_response (cfg : Config) (s : Store) (req : Request)
    (ph : PhaseRow) (proj : ProjectRow)
    (hL : findLinkage s req.phaseId req.projectId req.workStreamId = some ph)
    (hP : findProject s req.projectId = some proj)
    (hq : countProducts s req.projectId req.phaseId < cfg.maxPhaseProductCount) :
    (createWorkItem cfg envOk s req).effects.map effKind =
      [EffKind.busPublish, EffKind.appEmit, EffKind.httpRespond] := by
  rw [run_success cfg s req ph proj hL hP hq]
  rfl

/-- C9 witness: the ordering theorem at the scenario input. -/
theorem C9_publish_before_response_witness :
    (createWorkItem cfgW envOk storeW reqW).effects.map effKind =
      [EffKind.busPublish, EffKind.appEmit, EffKind.httpRespond] := by
  exact C9_publish_before_response cfgW storeW reqW phaseW projW
    (by decide) (by decide) (by decide)

/-- C10: No soft-delete filter on the linkage lookup.  Overwriting the
soft-delete markers of every phase and work-stream row never changes whether
the linkage query finds a row; on a concrete store whose only matching phase
and work-stream rows are both soft-deleted, step 1 still finds the linkage
and the run proceeds to a 201 response; whereas the project lookup only ever
returns rows with `deletedAt` unset, and the quota count sees exactly the
rows with `deletedAt` unset. -/
theorem C10_linkage_ignores_soft_delete :
    (∀ (s : Store) (t : Option Nat) (phaseId projectId workStreamId : Nat),
      (findLinkage (markLinkageDeleted s t) phaseId projectId workStreamId).isSome =
        (findLinkage s phaseId projectId workStreamId).isSome) ∧
    findLinkage storeSoftLink reqW.phaseId reqW.projectId reqW.workStreamId = some phaseSoft ∧
    (createWorkItem cfgW envOk storeSoftLink reqW).outcome =
      Outcome.responded 201 (wrapResponse reqW.id (newPlain storeSoftLink reqW projW) 1 201) ∧
    (∀ (s : Store) (pid : Nat) (p : ProjectRow),
      findProject s pid = some p → p.deletedAt = none) ∧
    (∀ (s : Store) (pid phid : Nat),
      countProducts s pid phid =
        countProducts
          { s with phaseProducts := s.phaseProducts.filter fun r => r.deletedAt == none }
          pid phid) := by
  refine ⟨findLinkage_mark_isSome, by decide, ?_, ?_, ?_⟩
  · rw [run_success cfgW storeSoftLink reqW phaseSoft projW (by decide) (by decide) (by decide)]
  · intro s pid p hp
    have hpred := List.find?_some hp
    simp only [Bool.and_eq_true, beq_iff_eq] at hpred
    exact hpred.2
  · intro s pid phid
    show (s.phaseProducts.filter _).length = ((s.phaseProducts.filter _).filter _).length
    rw [List.filter_filter]
    refine congrArg List.length (List.filter_congr ?_)
    intro r _
    cases hr : r.deletedAt <;> simp [hr]

end WorkItems
